import Mathlib

/-!
Shallow embedding of the SigNoz EE query-service data-access layer:
the ingestion-rule repository (package `ingestionRules`) and the
pipeline repository (package `pipelines`).  Each repository method runs a
single SQL statement against one table; we model a table as a `List` of
row structures and each method as a pure function from the old table (and
its inputs) to the method's return value together with the new table.

Driver-level failure of a statement (`ExecContext` / `SelectContext`
returning an error) is modelled by a boolean `dbOk` argument: `true`
means the statement executed, `false` means the driver reported an error.

JSON handling is abstracted: the structured config type is a type
parameter `Cfg`, `json.Marshal` is a parameter `marshal : Cfg → Option String`
(`none` = marshal error) and the row-level deserializer is a parameter
`parse : String → Option Cfg` (`none` = malformed raw config).
-/

namespace IngestionRules

/-- Deployment status of an ingestion rule or pipeline.  The constant
names follow the Go identifiers used in the repository code
(`PendingDeploy`, `Deploying`, and the terminal statuses). -/
inductive DeployStatus where
  | StatusUnknown
  | PendingDeploy
  | Deploying
  | Deployed
  | DeployFailed
deriving DecidableEq, Repr

/-- The Go `DeployStatus` is a string type whose zero value is the empty
string; `StatusUnknown` stands for that zero value. -/
instance : Inhabited DeployStatus := ⟨DeployStatus.StatusUnknown⟩

/-- A row of the `ingestion_rules` table / the Go `IngestionRule` struct.
`rawConfig` is the `config_json` column; `config` is the in-memory
structured config (a Go struct value, zero until parsed — here the
default value of `Cfg`). -/
structure IngestionRule (Cfg : Type) where
  id : String
  name : String
  source : String
  ruleType : String
  ruleSubType : String
  priority : Int
  config : Cfg
  rawConfig : String
  deployStatus : DeployStatus
  deploySequence : Int
  errorMessage : String
  updatedAt : Nat
deriving DecidableEq, Repr

/-- The Go `PostableIngestionRule` payload. -/
structure PostableIngestionRule (Cfg : Type) where
  name : String
  source : String
  ruleType : String
  ruleSubType : String
  priority : Int
  config : Cfg
deriving DecidableEq, Repr

/-- The rule-type constant used by the drop-rule queries
(`IngestionRuleTypeDrop` in the Go code; its literal value is opaque
here, only equality on the `rule_type` column matters). -/
def IngestionRuleTypeDrop : String := "drop_rule"

/-- Columns of the `ingestion_rules` table. -/
inductive Col where
  | id
  | name
  | source
  | rule_type
  | rule_subtype
  | priority
  | config_json
  | deployment_status
  | deployment_sequence
  | error_message
  | updated_at
deriving DecidableEq, Repr

/-- The column list of the `INSERT INTO ingestion_rules (...)` statement
in `InsertRule`, transcribed from the SQL text. -/
def insertRuleColumns : List Col :=
  [Col.id, Col.name, Col.source, Col.rule_type, Col.rule_subtype,
   Col.priority, Col.config_json]

/-- The row actually written by `InsertRule`'s INSERT statement: it sets
exactly the columns of `insertRuleColumns`; every other column keeps the
table default (`defaults`). -/
def insertedRuleRow {Cfg : Type} (defaults r : IngestionRule Cfg) : IngestionRule Cfg :=
  { defaults with
    id := r.id
    name := r.name
    source := r.source
    ruleType := r.ruleType
    ruleSubType := r.ruleSubType
    priority := r.priority
    rawConfig := r.rawConfig }

/-- The projection performed by the SELECT statements of `GetDropRules`,
`GetDropRulesByStatus` and `GetRule`: they list the columns id, source,
priority, rule_type, rule_subtype, name, config_json, deployment_status
and deployment_sequence, so the scanned struct has zero values for the
remaining fields (`error_message`, `updated_at`, and the unparsed
in-memory config). -/
def selectRuleRow {Cfg : Type} [Inhabited Cfg] (r : IngestionRule Cfg) : IngestionRule Cfg :=
  { r with
    config := default
    errorMessage := ""
    updatedAt := 0 }

/-- Modelled from the spec: `IngestionRule.parseConfig` (declared outside
the given files) deserializes the raw `config_json` into the structured
config and reports a parse failure as an error; the concrete JSON
decoding is the abstract parameter `parse`. -/
def parseConfig {Cfg : Type} (parse : String → Option Cfg)
    (r : IngestionRule Cfg) : IngestionRule Cfg × Option String :=
  match parse r.rawConfig with
  | some c => ({ r with config := c }, none)
  | none => (r, some ("failed to parse ingestion rule config " ++ r.id))

/-- The Go `model.ApiError` outcomes used by this code: bad-request
style errors versus internal errors. -/
inductive ApiError where
  | badRequest (msg : String)
  | internalError (msg : String)
deriving DecidableEq, Repr

/-- `Repo.InsertRule`: validate the postable payload, default the
priority to 1 when it is 0, marshal the config, build the returned
struct (with `DeployStatus = PendingDeploy`, `DeploySequence = -1`), and
run the INSERT (which writes only the seven `insertRuleColumns`).  The
result is `((returned rule?, error?), new table)`; note the Go code
returns the built struct together with the error when the INSERT itself
fails. -/
def InsertRule {Cfg : Type} (isValid : PostableIngestionRule Cfg → Option String)
    (marshal : Cfg → Option String) (newId : String) (dbOk : Bool)
    (defaults : IngestionRule Cfg) (db : List (IngestionRule Cfg))
    (postable : PostableIngestionRule Cfg) :
    (Option (IngestionRule Cfg) × Option String) × List (IngestionRule Cfg) :=
  match isValid postable with
  | some e => ((none, some ("failed to validate postable ingestion rule: " ++ e)), db)
  | none =>
    let priority : Int := if postable.priority = 0 then 1 else postable.priority
    match marshal postable.config with
    | none => ((none, some "failed to unmarshal postable ingestion config"), db)
    | some rawConfig =>
      let insertRow : IngestionRule Cfg :=
        { id := newId
          name := postable.name
          source := postable.source
          ruleType := postable.ruleType
          ruleSubType := postable.ruleSubType
          priority := priority
          config := postable.config
          rawConfig := rawConfig
          deployStatus := DeployStatus.PendingDeploy
          deploySequence := -1
          errorMessage := ""
          updatedAt := 0 }
      if dbOk then
        ((some insertRow, none), db ++ [insertedRuleRow defaults insertRow])
      else
        ((some insertRow, some "failed to insert ingestion rule"), db)

/-- `Repo.EditRule`: default the priority to 1 when it is 0, marshal the
config, and run the UPDATE, which on the rows whose `id` matches sets
name, rule_subtype, priority, config_json, and resets
`deployment_status` to `PendingDeploy` and `deployment_sequence` to -2.
The first component is the (mutated) `editParams` struct: its priority is
defaulted before the query and its `rawConfig` is set only after a
successful UPDATE. -/
def EditRule {Cfg : Type} (marshal : Cfg → Option String) (dbOk : Bool)
    (db : List (IngestionRule Cfg)) (editParams : IngestionRule Cfg) :
    (IngestionRule Cfg × Option String) × List (IngestionRule Cfg) :=
  let priority : Int := if editParams.priority = 0 then 1 else editParams.priority
  let params1 : IngestionRule Cfg := { editParams with priority := priority }
  match marshal editParams.config with
  | none => ((params1, some "failed to unmarshal edited ingestion rule config"), db)
  | some rawConfig =>
    if dbOk then
      ((({ params1 with rawConfig := rawConfig }), none),
        db.map (fun row =>
          if row.id = editParams.id then
            { row with
              name := editParams.name
              ruleSubType := editParams.ruleSubType
              priority := priority
              rawConfig := rawConfig
              deployStatus := DeployStatus.PendingDeploy
              deploySequence := -2 }
          else row))
    else
      ((params1, some "failed to updated edit ingestion rule"), db)

/-- `Repo.GetDropRules`: select the rows with `rule_type =
IngestionRuleTypeDrop` (projected to the listed columns), then parse
each row's config, collecting one error per malformed row; the row list
and the error list are returned together.  On a driver error the row
list is `none` (Go `nil`) with a single error. -/
def GetDropRules {Cfg : Type} [Inhabited Cfg] (parse : String → Option Cfg)
    (dbOk : Bool) (db : List (IngestionRule Cfg)) :
    Option (List (IngestionRule Cfg)) × List String :=
  if dbOk then
    let dropRules := (db.filter (fun r => r.ruleType = IngestionRuleTypeDrop)).map selectRuleRow
    (some dropRules, dropRules.filterMap (fun d => (parseConfig parse d).2))
  else
    (none, ["failed to get drop rules from db"])

/-- `Repo.GetRule`: select the rows with the given id; zero rows yields
`(none, none)` (not-found, no error); exactly one row is parsed and
returned (a parse failure keeps the row but reports an internal error);
more than one row yields an internal error.  A driver error yields a
bad-request error. -/
def GetRule {Cfg : Type} [Inhabited Cfg] (parse : String → Option Cfg)
    (dbOk : Bool) (db : List (IngestionRule Cfg)) (id : String) :
    Option (IngestionRule Cfg) × Option ApiError :=
  if dbOk then
    let rules := (db.filter (fun r => r.id = id)).map selectRuleRow
    match rules with
    | [] => (none, none)
    | [r] =>
      match parseConfig parse r with
      | (r2, some _) => (some r2, some (ApiError.internalError "found an invalid rule config "))
      | (r2, none) => (some r2, none)
    | _ => (none, some (ApiError.internalError "mutliple rules with same id"))
  else
    (none, some (ApiError.badRequest "failed to get ingestion rule from db"))

/-- `Repo.DeleteRule`: run `DELETE FROM ingestion_rules WHERE id = $1`;
a nil error is returned whenever the statement executes, matching rows
or not; a bad-request error is returned only on a driver failure. -/
def DeleteRule {Cfg : Type} (dbOk : Bool) (db : List (IngestionRule Cfg))
    (id : String) : Option ApiError × List (IngestionRule Cfg) :=
  if dbOk then
    (none, db.filter (fun r => ¬ r.id = id))
  else
    (some (ApiError.badRequest "delete failed"), db)

/-- Reads a nonempty run of decimal digits as a natural number. -/
def digitsToNat : List Char → Option Nat
  | [] => none
  | cs =>
    cs.foldl
      (fun acc c =>
        acc.bind (fun n => if c.isDigit then some (n * 10 + (c.toNat - 48)) else none))
      (some 0)

/-- SQLite-style conversion of a bound text value for comparison against
an INTEGER-affinity column: the text compares equal to an integer
exactly when it reads as that integer (an optional leading minus sign
followed by decimal digits); any other text matches no integer. -/
def textToInt (s : String) : Option Int :=
  match s.toList with
  | '-' :: rest => (digitsToNat rest).map (fun n => -(n : Int))
  | cs => (digitsToNat cs).map (fun n => (n : Int))

/-- `Repo.UpdateStatusBySeq`, transcribed from the SQL text as written:
the statement binds `deployment_status = $1`, `updated_at = $2`,
`error_message = $3` and `WHERE deployment_sequence = $3` — the WHERE
clause reuses placeholder `$3` (the error-message argument) instead of
`$4`, so the `seq` argument is never referenced by the query.  Under
SQLite's integer affinity the text bound in the WHERE clause matches a
row only when it reads as the row's integer sequence, modelled with
`textToInt`.  (Binding four arguments against three distinct
placeholders may instead be rejected outright by the driver; in that
case no row is ever updated either.) -/
def UpdateStatusBySeq {Cfg : Type} (now : Nat) (dbOk : Bool)
    (db : List (IngestionRule Cfg)) (seq : Int) (status : DeployStatus)
    (errorMessage : String) : Option ApiError × List (IngestionRule Cfg) :=
  if dbOk then
    (none, db.map (fun r =>
      if textToInt errorMessage = some r.deploySequence then
        { r with deployStatus := status, updatedAt := now, errorMessage := errorMessage }
      else r))
  else
    (some (ApiError.badRequest "failed to update ingestion rules by seq in db"), db)

end IngestionRules

namespace Pipelines

/-- A row of the `pipelines` table / the Go `model.Pipeline` struct. -/
structure Pipeline (Cfg : Type) where
  id : String
  orderId : Int
  enabled : Bool
  name : String
  Alias : String
  filter : String
  config : Cfg
  rawConfig : String
  deployStatus : IngestionRules.DeployStatus
  deploySequence : Int
deriving DecidableEq, Repr

/-- The Go `PostablePipeline` payload. -/
structure PostablePipeline (Cfg : Type) where
  orderId : Int
  enabled : Bool
  name : String
  Alias : String
  filter : String
  config : Cfg
deriving DecidableEq, Repr

/-- Columns of the `pipelines` table. -/
inductive PCol where
  | id
  | order_id
  | enabled
  | name
  | alias
  | filter
  | config_json
  | deployment_status
  | deployment_sequence
deriving DecidableEq, Repr

/-- The column list of the `INSERT INTO pipelines (...)` statement in
`insertPipeline`, transcribed from the SQL text. -/
def insertPipelineColumns : List PCol :=
  [PCol.id, PCol.order_id, PCol.enabled, PCol.name, PCol.alias,
   PCol.filter, PCol.config_json]

/-- The row written by `insertPipeline`'s INSERT statement: exactly the
columns of `insertPipelineColumns` are set, the rest keep the table
default. -/
def insertedPipelineRow {Cfg : Type} (defaults r : Pipeline Cfg) : Pipeline Cfg :=
  { defaults with
    id := r.id
    orderId := r.orderId
    enabled := r.enabled
    name := r.name
    Alias := r.Alias
    filter := r.filter
    rawConfig := r.rawConfig }

/-- The projection performed by the SELECT statements of
`getPipelinesByVersion` and `GetPipeline`: they list only the columns
id, name, config_json, deployment_status, deployment_sequence, so the
scanned struct has zero values for the other fields. -/
def selectPipelineRow {Cfg : Type} [Inhabited Cfg] (r : Pipeline Cfg) : Pipeline Cfg :=
  { r with
    orderId := 0
    enabled := false
    Alias := ""
    filter := ""
    config := default }

/-- Modelled from the spec: `Pipeline.ParseRawConfig` (declared outside
the given files) deserializes the raw `config_json` into the structured
config and reports a parse failure as an error; the concrete JSON
decoding is the abstract parameter `parse`. -/
def ParseRawConfig {Cfg : Type} (parse : String → Option Cfg)
    (r : Pipeline Cfg) : Pipeline Cfg × Option String :=
  match parse r.rawConfig with
  | some c => ({ r with config := c }, none)
  | none => (r, some ("failed to parse pipeline config " ++ r.id))

/-- The element-type constant `logPipelines` joined against in
`getPipelinesByVersion`. -/
def logPipelines : String := "log_pipelines"

/-- A row of the `agent_config_elements` table (the columns used by the
join in `getPipelinesByVersion`). -/
structure AgentConfigElement where
  elementId : String
  versionId : String
  elementType : String
deriving DecidableEq, Repr

/-- A row of the `agent_config_versions` table (the columns used by the
join in `getPipelinesByVersion`). -/
structure AgentConfigVersion where
  id : String
  version : Int
deriving DecidableEq, Repr

/-- `Repo.insertPipeline`: validate the postable payload, marshal the
config, build the returned struct, and run the INSERT (which writes only
the seven `insertPipelineColumns`).  The Go code returns the built
struct together with the error when the INSERT itself fails. -/
def insertPipeline {Cfg : Type} [Inhabited Cfg]
    (isValid : PostablePipeline Cfg → Option String)
    (marshal : Cfg → Option String) (newId : String) (dbOk : Bool)
    (defaults : Pipeline Cfg) (db : List (Pipeline Cfg))
    (postable : PostablePipeline Cfg) :
    (Option (Pipeline Cfg) × Option String) × List (Pipeline Cfg) :=
  match isValid postable with
  | some e => ((none, some ("failed to validate postable ingestion pipeline: " ++ e)), db)
  | none =>
    match marshal postable.config with
    | none => ((none, some "failed to unmarshal postable ingestion config"), db)
    | some rawConfig =>
      let insertRow : Pipeline Cfg :=
        { id := newId
          orderId := postable.orderId
          enabled := postable.enabled
          name := postable.name
          Alias := postable.Alias
          filter := postable.filter
          config := postable.config
          rawConfig := rawConfig
          deployStatus := default
          deploySequence := 0 }
      if dbOk then
        ((some insertRow, none), db ++ [insertedPipelineRow defaults insertRow])
      else
        ((some insertRow, some "failed to insert pipeline"), db)

/-- The row set produced by the three-table join of
`getPipelinesByVersion`: one pipeline row (projected) per triple
`(r, e, v)` with `r.id = e.element_id`, `v.id = e.version_id`,
`e.element_type = logPipelines` and `v.version = version`. -/
def pipelinesOfVersion {Cfg : Type} [Inhabited Cfg] (db : List (Pipeline Cfg))
    (elements : List AgentConfigElement) (versions : List AgentConfigVersion)
    (version : Int) : List (Pipeline Cfg) :=
  db.flatMap (fun r =>
    elements.flatMap (fun e =>
      versions.filterMap (fun v =>
        if r.id = e.elementId ∧ v.id = e.versionId ∧
            e.elementType = logPipelines ∧ v.version = version then
          some (selectPipelineRow r)
        else none)))

/-- `Repo.getPipelinesByVersion`: run the join, then parse each
returned row's config, collecting one error per malformed row; the row
list and the error list are returned together.  On a driver error the
row list is `none` (Go `nil`) with a single error. -/
def getPipelinesByVersion {Cfg : Type} [Inhabited Cfg]
    (parse : String → Option Cfg) (dbOk : Bool) (db : List (Pipeline Cfg))
    (elements : List AgentConfigElement) (versions : List AgentConfigVersion)
    (version : Int) : Option (List (Pipeline Cfg)) × List String :=
  if dbOk then
    let pipelines := pipelinesOfVersion db elements versions version
    (some pipelines, pipelines.filterMap (fun d => (ParseRawConfig parse d).2))
  else
    (none, ["failed to get drop pipelines from db"])

/-- `Repo.GetPipeline`: select the rows with the given id; zero rows
yields `(none, none)` (not-found, no error); exactly one row is parsed
and returned (a parse failure keeps the row but reports an internal
error); more than one row yields an internal error.  A driver error
yields a bad-request error. -/
def GetPipeline {Cfg : Type} [Inhabited Cfg] (parse : String → Option Cfg)
    (dbOk : Bool) (db : List (Pipeline Cfg)) (id : String) :
    Option (Pipeline Cfg) × Option IngestionRules.ApiError :=
  if dbOk then
    let pipelines := (db.filter (fun r => r.id = id)).map selectPipelineRow
    match pipelines with
    | [] => (none, none)
    | [r] =>
      match ParseRawConfig parse r with
      | (r2, some _) =>
        (some r2, some (IngestionRules.ApiError.internalError "found an invalid pipeline config "))
      | (r2, none) => (some r2, none)
    | _ => (none, some (IngestionRules.ApiError.internalError "mutliple pipelines with same id"))
  else
    (none, some (IngestionRules.ApiError.badRequest "failed to get ingestion pipeline from db"))

/-- `Repo.DeletePipeline`: run `DELETE FROM pipelines WHERE id = $1`; a
nil error is returned whenever the statement executes, matching rows or
not; a bad-request error is returned only on a driver failure. -/
def DeletePipeline {Cfg : Type} (dbOk : Bool) (db : List (Pipeline Cfg))
    (id : String) : Option IngestionRules.ApiError × List (Pipeline Cfg) :=
  if dbOk then
    (none, db.filter (fun r => ¬ r.id = id))
  else
    (some (IngestionRules.ApiError.badRequest "delete failed"), db)

end Pipelines

namespace IngestionRules

/-- Anatomy of a successful `InsertRule` call: validation and marshalling
succeeded, the INSERT executed, the built struct is returned and the row
written is `insertedRuleRow defaults` of that struct. -/
theorem InsertRule_success_spec {Cfg : Type}
    (isValid : PostableIngestionRule Cfg → Option String)
    (marshal : Cfg → Option String) (newId : String) (dbOk : Bool)
    (defaults : IngestionRule Cfg) (db : List (IngestionRule Cfg))
    (postable : PostableIngestionRule Cfg)
    (h : ((InsertRule isValid marshal newId dbOk defaults db postable).1).2 = none) :
    ∃ r, ((InsertRule isValid marshal newId dbOk defaults db postable).1).1 = some r ∧
      (InsertRule isValid marshal newId dbOk defaults db postable).2 =
        db ++ [insertedRuleRow defaults r] ∧
      marshal postable.config = some r.rawConfig ∧
      r.priority = (if postable.priority = 0 then 1 else postable.priority) ∧
      r.deployStatus = DeployStatus.PendingDeploy ∧
      r.deploySequence = -1 := by
  cases hv : isValid postable with
  | some e => simp [InsertRule, hv] at h
  | none =>
    cases hm : marshal postable.config with
    | none => simp [InsertRule, hv, hm] at h
    | some raw =>
      cases dbOk with
      | false => simp [InsertRule, hv, hm] at h
      | true =>
        refine ⟨{ id := newId
                  name := postable.name
                  source := postable.source
                  ruleType := postable.ruleType
                  ruleSubType := postable.ruleSubType
                  priority := if postable.priority = 0 then 1 else postable.priority
                  config := postable.config
                  rawConfig := raw
                  deployStatus := DeployStatus.PendingDeploy
                  deploySequence := -1
                  errorMessage := ""
                  updatedAt := 0 }, ?_, ?_, ?_, ?_, ?_, ?_⟩ <;>
          simp [InsertRule, hv, hm]

/-- Anatomy of a successful `EditRule` call: marshalling succeeded, the
UPDATE executed, the returned struct carries the defaulted priority and
the marshalled raw config, and the new table is the row-wise update. -/
theorem EditRule_success_spec {Cfg : Type} (marshal : Cfg → Option String)
    (dbOk : Bool) (db : List (IngestionRule Cfg)) (editParams : IngestionRule Cfg)
    (h : ((EditRule marshal dbOk db editParams).1).2 = none) :
    marshal editParams.config =
      some (((EditRule marshal dbOk db editParams).1).1.rawConfig) ∧
    ((EditRule marshal dbOk db editParams).1).1.priority =
      (if editParams.priority = 0 then 1 else editParams.priority) ∧
    (EditRule marshal dbOk db editParams).2 =
      db.map (fun row =>
        if row.id = editParams.id then
          { row with
            name := editParams.name
            ruleSubType := editParams.ruleSubType
            priority := (if editParams.priority = 0 then 1 else editParams.priority)
            rawConfig := ((EditRule marshal dbOk db editParams).1).1.rawConfig
            deployStatus := DeployStatus.PendingDeploy
            deploySequence := -2 }
        else row) := by
  cases hm : marshal editParams.config with
  | none => simp [EditRule, hm] at h
  | some raw =>
    cases dbOk with
    | false => simp [EditRule, hm] at h
    | true => refine ⟨?_, ?_, ?_⟩ <;> simp [EditRule, hm]

/-- One collected parse error per malformed row: over any row list, the
errors collected by the `parseConfig` loop are exactly as many as the
rows whose raw config fails to parse. -/
theorem parseErrors_length {Cfg : Type} (parse : String → Option Cfg)
    (l : List (IngestionRule Cfg)) :
    (l.filterMap (fun d => (parseConfig parse d).2)).length =
      (l.filter (fun d => (parse d.rawConfig).isNone)).length := by
  induction l with
  | nil => rfl
  | cons d rest ih =>
    simp only [List.filterMap_cons, List.filter_cons, parseConfig]
    cases hp : parse d.rawConfig with
    | some c => simpa [hp] using ih
    | none => simpa [hp] using ih

end IngestionRules

namespace Pipelines

/-- Anatomy of a successful `insertPipeline` call. -/
theorem insertPipeline_success_spec {Cfg : Type} [Inhabited Cfg]
    (isValid : PostablePipeline Cfg → Option String)
    (marshal : Cfg → Option String) (newId : String) (dbOk : Bool)
    (defaults : Pipeline Cfg) (db : List (Pipeline Cfg))
    (postable : PostablePipeline Cfg)
    (h : ((insertPipeline isValid marshal newId dbOk defaults db postable).1).2 = none) :
    ∃ r, ((insertPipeline isValid marshal newId dbOk defaults db postable).1).1 = some r ∧
      (insertPipeline isValid marshal newId dbOk defaults db postable).2 =
        db ++ [insertedPipelineRow defaults r] ∧
      marshal postable.config = some r.rawConfig := by
  cases hv : isValid postable with
  | some e => simp [insertPipeline, hv] at h
  | none =>
    cases hm : marshal postable.config with
    | none => simp [insertPipeline, hv, hm] at h
    | some raw =>
      cases dbOk with
      | false => simp [insertPipeline, hv, hm] at h
      | true =>
        refine ⟨{ id := newId
                  orderId := postable.orderId
                  enabled := postable.enabled
                  name := postable.name
                  Alias := postable.Alias
                  filter := postable.filter
                  config := postable.config
                  rawConfig := raw
                  deployStatus := default
                  deploySequence := 0 }, ?_, ?_, ?_⟩ <;>
          simp [insertPipeline, hv, hm]

/-- One collected parse error per malformed row, pipeline version. -/
theorem parseRawErrors_length {Cfg : Type} (parse : String → Option Cfg)
    (l : List (Pipeline Cfg)) :
    (l.filterMap (fun d => (ParseRawConfig parse d).2)).length =
      (l.filter (fun d => (parse d.rawConfig).isNone)).length := by
  induction l with
  | nil => rfl
  | cons d rest ih =>
    simp only [List.filterMap_cons, List.filter_cons, ParseRawConfig]
    cases hp : parse d.rawConfig with
    | some c => simpa [hp] using ih
    | none => simpa [hp] using ih

end Pipelines

/-!
Concrete instantiation used to exercise the definitions on closed
inputs: configs are natural numbers, serialization is decimal printing,
parsing is decimal reading.
-/

/-- Concrete marshaller: decimal printing (never fails). -/
def natMarshal : Nat → Option String := fun n => some (toString n)

/-- Concrete row-config parser: decimal reading. -/
def natParse : String → Option Nat := String.toNat?

/-- A concrete validator for rule payloads: the name must be nonempty. -/
def ruleNameRequired : IngestionRules.PostableIngestionRule Nat → Option String :=
  fun p => if p.name = "" then some "rule name is required" else none

/-- A concrete validator for pipeline payloads: the name must be nonempty. -/
def pipelineNameRequired : Pipelines.PostablePipeline Nat → Option String :=
  fun p => if p.name = "" then some "pipeline name is required" else none

/-- Table defaults for `ingestion_rules` rows in the examples. -/
def ruleDefaults : IngestionRules.IngestionRule Nat :=
  ⟨"", "", "", "", "", 0, 0, "", IngestionRules.DeployStatus.StatusUnknown, 0, "", 0⟩

/-- Table defaults for `pipelines` rows in the examples. -/
def pipeDefaults : Pipelines.Pipeline Nat :=
  ⟨"", 0, false, "", "", "", 0, "", IngestionRules.DeployStatus.StatusUnknown, 0⟩

/-- A stored drop rule currently deploying with sequence number 7. -/
def sampleRule : IngestionRules.IngestionRule Nat :=
  ⟨"rule-1", "drop spans", "logs", IngestionRules.IngestionRuleTypeDrop, "always",
    3, 0, "42", IngestionRules.DeployStatus.Deploying, 7, "", 0⟩

/-- An edit payload targeting `sampleRule` with an omitted (zero)
priority. -/
def sampleEdit : IngestionRules.IngestionRule Nat :=
  ⟨"rule-1", "new name", "logs", IngestionRules.IngestionRuleTypeDrop, "sub",
    0, 5, "", IngestionRules.DeployStatus.Deployed, 9, "", 0⟩

/-- The row `sampleRule` becomes after `EditRule` with `sampleEdit`. -/
def sampleEditedRow : IngestionRules.IngestionRule Nat :=
  ⟨"rule-1", "new name", "logs", IngestionRules.IngestionRuleTypeDrop, "sub",
    1, 0, "5", IngestionRules.DeployStatus.PendingDeploy, -2, "", 0⟩

/-- A rule payload with an omitted (zero) priority. -/
def samplePostableRule : IngestionRules.PostableIngestionRule Nat :=
  ⟨"drop spans", "logs", IngestionRules.IngestionRuleTypeDrop, "always", 0, 42⟩

/-- A pipeline payload. -/
def samplePostablePipe : Pipelines.PostablePipeline Nat :=
  ⟨1, true, "pipe", "p", "f", 42⟩

/-- C1 (code_bug): evaluating `UpdateStatusBySeq` at its intended kind of
input — a stored rule whose `deployment_sequence` equals the `seq`
argument and a non-numeric error message — the statement matches nothing:
the table is unchanged, so the rule with the given sequence number is
left with its old status and empty error message, contrary to the claim
(the WHERE clause reuses the `$3` error-message binding instead of `$4`,
so the `seq` argument is never consulted). -/
theorem updateStatusBySeq_failing_input :
    IngestionRules.UpdateStatusBySeq 99 true [sampleRule] 7
        IngestionRules.DeployStatus.DeployFailed "deployment failed" =
      (none, [sampleRule]) ∧
    sampleRule.deploySequence = 7 ∧
    sampleRule.deployStatus ≠ IngestionRules.DeployStatus.DeployFailed ∧
    sampleRule.errorMessage ≠ "deployment failed" := by
  refine ⟨?_, rfl, by decide, by decide⟩
  have hne : IngestionRules.textToInt "deployment failed" = none := by decide
  simp [IngestionRules.UpdateStatusBySeq, sampleRule, hne]

/-- C2: a successful `EditRule` leaves every stored row whose id matches
the edited id with `deployment_status = PendingDeploy` and
`deployment_sequence = -2`, whatever the row's prior deploy state. -/
theorem editRule_resets_deploy_state {Cfg : Type} (marshal : Cfg → Option String)
    (dbOk : Bool) (db : List (IngestionRules.IngestionRule Cfg))
    (editParams row : IngestionRules.IngestionRule Cfg)
    (hok : ((IngestionRules.EditRule marshal dbOk db editParams).1).2 = none)
    (hrow : row ∈ (IngestionRules.EditRule marshal dbOk db editParams).2)
    (hid : row.id = editParams.id) :
    row.deployStatus = IngestionRules.DeployStatus.PendingDeploy ∧
    row.deploySequence = -2 := by
  obtain ⟨-, -, hdb⟩ := IngestionRules.EditRule_success_spec marshal dbOk db editParams hok
  rw [hdb] at hrow
  obtain ⟨r0, hr0, hmap⟩ := List.mem_map.mp hrow
  by_cases hc : r0.id = editParams.id
  · rw [if_pos hc] at hmap
    subst hmap
    exact ⟨rfl, rfl⟩
  · rw [if_neg hc] at hmap
    subst hmap
    exact absurd hid hc

/-- Witness for C2 at concrete inputs. -/
theorem editRule_resets_deploy_state_witness :
    ((IngestionRules.EditRule natMarshal true [sampleRule] sampleEdit).1).2 = none ∧
    sampleEditedRow ∈ (IngestionRules.EditRule natMarshal true [sampleRule] sampleEdit).2 ∧
    sampleEditedRow.id = sampleEdit.id ∧
    (sampleEditedRow.deployStatus = IngestionRules.DeployStatus.PendingDeploy ∧
      sampleEditedRow.deploySequence = -2) :=
  ⟨rfl, by decide, rfl,
    editRule_resets_deploy_state natMarshal true [sampleRule] sampleEdit
      sampleEditedRow rfl (by decide) rfl⟩

/-- C3: when validation of the postable payload fails, `InsertRule` and
`insertPipeline` return an error, a nil result, and leave the stored
table unchanged — no database write happens. -/
theorem invalid_insert_rejected_before_write {Cfg : Type} [Inhabited Cfg]
    (isValidR : IngestionRules.PostableIngestionRule Cfg → Option String)
    (isValidP : Pipelines.PostablePipeline Cfg → Option String)
    (marshalR marshalP : Cfg → Option String) (newIdR newIdP : String)
    (dbOkR dbOkP : Bool)
    (defaultsR : IngestionRules.IngestionRule Cfg) (defaultsP : Pipelines.Pipeline Cfg)
    (dbR : List (IngestionRules.IngestionRule Cfg)) (dbP : List (Pipelines.Pipeline Cfg))
    (postable : IngestionRules.PostableIngestionRule Cfg)
    (ppost : Pipelines.PostablePipeline Cfg) (e1 e2 : String)
    (hR : isValidR postable = some e1) (hP : isValidP ppost = some e2) :
    (IngestionRules.InsertRule isValidR marshalR newIdR dbOkR defaultsR dbR postable).2 = dbR ∧
    ((IngestionRules.InsertRule isValidR marshalR newIdR dbOkR defaultsR dbR postable).1).1 = none ∧
    ((IngestionRules.InsertRule isValidR marshalR newIdR dbOkR defaultsR dbR postable).1).2.isSome = true ∧
    (Pipelines.insertPipeline isValidP marshalP newIdP dbOkP defaultsP dbP ppost).2 = dbP ∧
    ((Pipelines.insertPipeline isValidP marshalP newIdP dbOkP defaultsP dbP ppost).1).1 = none ∧
    ((Pipelines.insertPipeline isValidP marshalP newIdP dbOkP defaultsP dbP ppost).1).2.isSome = true := by
  refine ⟨?_, ?_, ?_, ?_, ?_, ?_⟩ <;>
    simp [IngestionRules.InsertRule, Pipelines.insertPipeline, hR, hP]

/-- Witness for C3 at concrete inputs: the name-required validator
rejects payloads with an empty name. -/
theorem invalid_insert_rejected_before_write_witness :
    ruleNameRequired { samplePostableRule with name := "" } = some "rule name is required" ∧
    pipelineNameRequired { samplePostablePipe with name := "" } = some "pipeline name is required" ∧
    ((IngestionRules.InsertRule ruleNameRequired natMarshal "id-1" true ruleDefaults
        [sampleRule] { samplePostableRule with name := "" }).2 = [sampleRule] ∧
      ((IngestionRules.InsertRule ruleNameRequired natMarshal "id-1" true ruleDefaults
        [sampleRule] { samplePostableRule with name := "" }).1).1 = none ∧
      ((IngestionRules.InsertRule ruleNameRequired natMarshal "id-1" true ruleDefaults
        [sampleRule] { samplePostableRule with name := "" }).1).2.isSome = true ∧
      (Pipelines.insertPipeline pipelineNameRequired natMarshal "id-2" true pipeDefaults
        [] { samplePostablePipe with name := "" }).2 = [] ∧
      ((Pipelines.insertPipeline pipelineNameRequired natMarshal "id-2" true pipeDefaults
        [] { samplePostablePipe with name := "" }).1).1 = none ∧
      ((Pipelines.insertPipeline pipelineNameRequired natMarshal "id-2" true pipeDefaults
        [] { samplePostablePipe with name := "" }).1).2.isSome = true) :=
  ⟨rfl, rfl,
    invalid_insert_rejected_before_write ruleNameRequired pipelineNameRequired
      natMarshal natMarshal "id-1" "id-2" true true ruleDefaults pipeDefaults
      [sampleRule] [] { samplePostableRule with name := "" }
      { samplePostablePipe with name := "" } "rule name is required"
      "pipeline name is required" rfl rfl⟩

/-- C4: when no stored row matches the requested id, `GetRule` and
`GetPipeline` return `(none, none)` — the not-found signal is a nil
result with a nil error. -/
theorem get_by_id_zero_rows_not_found {Cfg : Type} [Inhabited Cfg]
    (parseR parseP : String → Option Cfg)
    (dbR : List (IngestionRules.IngestionRule Cfg)) (dbP : List (Pipelines.Pipeline Cfg))
    (idR idP : String)
    (hR : dbR.filter (fun r => r.id = idR) = [])
    (hP : dbP.filter (fun r => r.id = idP) = []) :
    IngestionRules.GetRule parseR true dbR idR = (none, none) ∧
    Pipelines.GetPipeline parseP true dbP idP = (none, none) := by
  constructor
  · simp [IngestionRules.GetRule, hR]
  · simp [Pipelines.GetPipeline, hP]

/-- Witness for C4 at concrete inputs. -/
theorem get_by_id_zero_rows_not_found_witness :
    [sampleRule].filter (fun r => r.id = "missing") = [] ∧
    ([] : List (Pipelines.Pipeline Nat)).filter (fun r => r.id = "missing") = [] ∧
    (IngestionRules.GetRule natParse true [sampleRule] "missing" = (none, none) ∧
      Pipelines.GetPipeline natParse true [] "missing" = (none, none)) :=
  ⟨by decide, rfl,
    get_by_id_zero_rows_not_found natParse natParse [sampleRule] [] "missing" "missing"
      (by decide) rfl⟩

/-- C5: when more than one stored row matches the requested id, `GetRule`
and `GetPipeline` return a nil result with an internal error (neither a
bad-request error nor a success). -/
theorem get_by_id_multiple_rows_internal_error {Cfg : Type} [Inhabited Cfg]
    (parseR parseP : String → Option Cfg)
    (dbR : List (IngestionRules.IngestionRule Cfg)) (dbP : List (Pipelines.Pipeline Cfg))
    (idR idP : String)
    (hR : 2 ≤ (dbR.filter (fun r => r.id = idR)).length)
    (hP : 2 ≤ (dbP.filter (fun r => r.id = idP)).length) :
    IngestionRules.GetRule parseR true dbR idR =
      (none, some (IngestionRules.ApiError.internalError "mutliple rules with same id")) ∧
    Pipelines.GetPipeline parseP true dbP idP =
      (none, some (IngestionRules.ApiError.internalError "mutliple pipelines with same id")) := by
  constructor
  · cases hl : dbR.filter (fun r => r.id = idR) with
    | nil => rw [hl] at hR; simp at hR
    | cons a t =>
      cases t with
      | nil => rw [hl] at hR; simp at hR
      | cons b t2 => simp [IngestionRules.GetRule, hl]
  · cases hl : dbP.filter (fun r => r.id = idP) with
    | nil => rw [hl] at hP; simp at hP
    | cons a t =>
      cases t with
      | nil => rw [hl] at hP; simp at hP
      | cons b t2 => simp [Pipelines.GetPipeline, hl]

/-- A second stored row sharing `sampleRule`'s id, for the duplicate-id
example. -/
def sampleRuleDup : IngestionRules.IngestionRule Nat :=
  { sampleRule with name := "duplicate", deploySequence := 8 }

/-- A pair of stored pipelines sharing one id. -/
def samplePipe : Pipelines.Pipeline Nat :=
  ⟨"pipe-1", 1, true, "pipe", "p", "f", 0, "42",
    IngestionRules.DeployStatus.StatusUnknown, 0⟩

/-- Witness for C5 at concrete inputs. -/
theorem get_by_id_multiple_rows_internal_error_witness :
    2 ≤ ([sampleRule, sampleRuleDup].filter (fun r => r.id = "rule-1")).length ∧
    2 ≤ ([samplePipe, samplePipe].filter (fun r => r.id = "pipe-1")).length ∧
    (IngestionRules.GetRule natParse true [sampleRule, sampleRuleDup] "rule-1" =
        (none, some (IngestionRules.ApiError.internalError "mutliple rules with same id")) ∧
      Pipelines.GetPipeline natParse true [samplePipe, samplePipe] "pipe-1" =
        (none, some (IngestionRules.ApiError.internalError "mutliple pipelines with same id"))) :=
  ⟨by decide, by decide,
    get_by_id_multiple_rows_internal_error natParse natParse
      [sampleRule, sampleRuleDup] [samplePipe, samplePipe] "rule-1" "pipe-1"
      (by decide) (by decide)⟩

/-- C6: the list operations return every selected row — the malformed
ones included — together with exactly one collected error per row whose
raw config fails to parse, instead of failing the whole call. -/
theorem list_collects_per_row_parse_errors {Cfg : Type} [Inhabited Cfg]
    (parseR parseP : String → Option Cfg)
    (dbR : List (IngestionRules.IngestionRule Cfg)) (dbP : List (Pipelines.Pipeline Cfg))
    (elements : List Pipelines.AgentConfigElement)
    (versions : List Pipelines.AgentConfigVersion) (version : Int) :
    (IngestionRules.GetDropRules parseR true dbR).1 =
      some ((dbR.filter (fun r => r.ruleType = IngestionRules.IngestionRuleTypeDrop)).map
        IngestionRules.selectRuleRow) ∧
    ((IngestionRules.GetDropRules parseR true dbR).2).length =
      (((dbR.filter (fun r => r.ruleType = IngestionRules.IngestionRuleTypeDrop)).map
        IngestionRules.selectRuleRow).filter
          (fun d => (parseR d.rawConfig).isNone)).length ∧
    (Pipelines.getPipelinesByVersion parseP true dbP elements versions version).1 =
      some (Pipelines.pipelinesOfVersion dbP elements versions version) ∧
    ((Pipelines.getPipelinesByVersion parseP true dbP elements versions version).2).length =
      ((Pipelines.pipelinesOfVersion dbP elements versions version).filter
        (fun d => (parseP d.rawConfig).isNone)).length := by
  refine ⟨rfl, ?_, rfl, ?_⟩
  · simpa [IngestionRules.GetDropRules] using
      IngestionRules.parseErrors_length parseR
        ((dbR.filter (fun r => r.ruleType = IngestionRules.IngestionRuleTypeDrop)).map
          IngestionRules.selectRuleRow)
  · simpa [Pipelines.getPipelinesByVersion] using
      Pipelines.parseRawErrors_length parseP
        (Pipelines.pipelinesOfVersion dbP elements versions version)

/-- C7: both `InsertRule` and `EditRule` write priority 1 when the
submitted priority is 0, and keep a nonzero submitted priority as
given. -/
theorem default_priority_applied {Cfg : Type}
    (isValid : IngestionRules.PostableIngestionRule Cfg → Option String)
    (marshalI marshalE : Cfg → Option String) (newId : String) (dbOkI dbOkE : Bool)
    (defaults : IngestionRules.IngestionRule Cfg)
    (dbI dbE : List (IngestionRules.IngestionRule Cfg))
    (postable : IngestionRules.PostableIngestionRule Cfg)
    (editParams : IngestionRules.IngestionRule Cfg)
    (hIns : ((IngestionRules.InsertRule isValid marshalI newId dbOkI defaults dbI postable).1).2 = none)
    (hEd : ((IngestionRules.EditRule marshalE dbOkE dbE editParams).1).2 = none) :
    (∃ r, ((IngestionRules.InsertRule isValid marshalI newId dbOkI defaults dbI postable).1).1 = some r ∧
      r.priority = (if postable.priority = 0 then 1 else postable.priority) ∧
      (IngestionRules.InsertRule isValid marshalI newId dbOkI defaults dbI postable).2 =
        dbI ++ [IngestionRules.insertedRuleRow defaults r]) ∧
    ((IngestionRules.EditRule marshalE dbOkE dbE editParams).1).1.priority =
      (if editParams.priority = 0 then 1 else editParams.priority) ∧
    (∀ row ∈ (IngestionRules.EditRule marshalE dbOkE dbE editParams).2,
      row.id = editParams.id →
        row.priority = (if editParams.priority = 0 then 1 else editParams.priority)) := by
  obtain ⟨r, hr1, hr2, -, hr4, -, -⟩ :=
    IngestionRules.InsertRule_success_spec isValid marshalI newId dbOkI defaults dbI postable hIns
  obtain ⟨-, hp, hdb⟩ := IngestionRules.EditRule_success_spec marshalE dbOkE dbE editParams hEd
  refine ⟨⟨r, hr1, hr4, hr2⟩, hp, ?_⟩
  intro row hrow hid
  rw [hdb] at hrow
  obtain ⟨r0, hr0, hmap⟩ := List.mem_map.mp hrow
  by_cases hc : r0.id = editParams.id
  · rw [if_pos hc] at hmap
    subst hmap
    rfl
  · rw [if_neg hc] at hmap
    subst hmap
    exact absurd hid hc

/-- Witness for C7 at concrete inputs. -/
theorem default_priority_applied_witness :
    ((IngestionRules.InsertRule ruleNameRequired natMarshal "id-1" true ruleDefaults
        [] samplePostableRule).1).2 = none ∧
    ((IngestionRules.EditRule natMarshal true [sampleRule] sampleEdit).1).2 = none ∧
    ((∃ r, ((IngestionRules.InsertRule ruleNameRequired natMarshal "id-1" true ruleDefaults
        [] samplePostableRule).1).1 = some r ∧
      r.priority = (if samplePostableRule.priority = 0 then 1 else samplePostableRule.priority) ∧
      (IngestionRules.InsertRule ruleNameRequired natMarshal "id-1" true ruleDefaults
        [] samplePostableRule).2 = [] ++ [IngestionRules.insertedRuleRow ruleDefaults r]) ∧
    ((IngestionRules.EditRule natMarshal true [sampleRule] sampleEdit).1).1.priority =
      (if sampleEdit.priority = 0 then 1 else sampleEdit.priority) ∧
    (∀ row ∈ (IngestionRules.EditRule natMarshal true [sampleRule] sampleEdit).2,
      row.id = sampleEdit.id →
        row.priority = (if sampleEdit.priority = 0 then 1 else sampleEdit.priority))) :=
  ⟨rfl, rfl,
    default_priority_applied ruleNameRequired natMarshal natMarshal "id-1" true true
      ruleDefaults [] [sampleRule] samplePostableRule sampleEdit rfl rfl⟩

/-- C8: at every successful write, the raw serialized config stored in
the `config_json` column and carried by the returned struct is the
serialization of the structured config value being written. -/
theorem raw_config_valid_serialization_at_write {Cfg : Type} [Inhabited Cfg]
    (isValidR : IngestionRules.PostableIngestionRule Cfg → Option String)
    (isValidP : Pipelines.PostablePipeline Cfg → Option String)
    (marshalR marshalP marshalE : Cfg → Option String)
    (newIdR newIdP : String) (dbOkR dbOkP dbOkE : Bool)
    (defaultsR : IngestionRules.IngestionRule Cfg) (defaultsP : Pipelines.Pipeline Cfg)
    (dbR dbE : List (IngestionRules.IngestionRule Cfg)) (dbP : List (Pipelines.Pipeline Cfg))
    (postable : IngestionRules.PostableIngestionRule Cfg)
    (ppost : Pipelines.PostablePipeline Cfg)
    (editParams : IngestionRules.IngestionRule Cfg)
    (hIns : ((IngestionRules.InsertRule isValidR marshalR newIdR dbOkR defaultsR dbR postable).1).2 = none)
    (hPIns : ((Pipelines.insertPipeline isValidP marshalP newIdP dbOkP defaultsP dbP ppost).1).2 = none)
    (hEd : ((IngestionRules.EditRule marshalE dbOkE dbE editParams).1).2 = none) :
    (∃ r, ((IngestionRules.InsertRule isValidR marshalR newIdR dbOkR defaultsR dbR postable).1).1 = some r ∧
      marshalR postable.config = some r.rawConfig ∧
      (IngestionRules.InsertRule isValidR marshalR newIdR dbOkR defaultsR dbR postable).2 =
        dbR ++ [IngestionRules.insertedRuleRow defaultsR r] ∧
      (IngestionRules.insertedRuleRow defaultsR r).rawConfig = r.rawConfig) ∧
    (∃ p, ((Pipelines.insertPipeline isValidP marshalP newIdP dbOkP defaultsP dbP ppost).1).1 = some p ∧
      marshalP ppost.config = some p.rawConfig ∧
      (Pipelines.insertPipeline isValidP marshalP newIdP dbOkP defaultsP dbP ppost).2 =
        dbP ++ [Pipelines.insertedPipelineRow defaultsP p] ∧
      (Pipelines.insertedPipelineRow defaultsP p).rawConfig = p.rawConfig) ∧
    (marshalE editParams.config =
        some (((IngestionRules.EditRule marshalE dbOkE dbE editParams).1).1.rawConfig) ∧
      ∀ row ∈ (IngestionRules.EditRule marshalE dbOkE dbE editParams).2,
        row.id = editParams.id →
          row.rawConfig = ((IngestionRules.EditRule marshalE dbOkE dbE editParams).1).1.rawConfig) := by
  obtain ⟨r, hr1, hr2, hr3, -, -, -⟩ :=
    IngestionRules.InsertRule_success_spec isValidR marshalR newIdR dbOkR defaultsR dbR postable hIns
  obtain ⟨p, hp1, hp2, hp3⟩ :=
    Pipelines.insertPipeline_success_spec isValidP marshalP newIdP dbOkP defaultsP dbP ppost hPIns
  obtain ⟨he1, -, hdb⟩ := IngestionRules.EditRule_success_spec marshalE dbOkE dbE editParams hEd
  refine ⟨⟨r, hr1, hr3, hr2, rfl⟩, ⟨p, hp1, hp3, hp2, rfl⟩, he1, ?_⟩
  intro row hrow hid
  rw [hdb] at hrow
  obtain ⟨r0, hr0, hmap⟩ := List.mem_map.mp hrow
  by_cases hc : r0.id = editParams.id
  · rw [if_pos hc] at hmap
    subst hmap
    rfl
  · rw [if_neg hc] at hmap
    subst hmap
    exact absurd hid hc

/-- Witness for C8 at concrete inputs. -/
theorem raw_config_valid_serialization_at_write_witness :
    ((IngestionRules.InsertRule ruleNameRequired natMarshal "id-1" true ruleDefaults
        [] samplePostableRule).1).2 = none ∧
    ((Pipelines.insertPipeline pipelineNameRequired natMarshal "id-2" true pipeDefaults
        [] samplePostablePipe).1).2 = none ∧
    ((IngestionRules.EditRule natMarshal true [sampleRule] sampleEdit).1).2 = none ∧
    ((∃ r, ((IngestionRules.InsertRule ruleNameRequired natMarshal "id-1" true ruleDefaults
        [] samplePostableRule).1).1 = some r ∧
      natMarshal samplePostableRule.config = some r.rawConfig ∧
      (IngestionRules.InsertRule ruleNameRequired natMarshal "id-1" true ruleDefaults
        [] samplePostableRule).2 = [] ++ [IngestionRules.insertedRuleRow ruleDefaults r] ∧
      (IngestionRules.insertedRuleRow ruleDefaults r).rawConfig = r.rawConfig) ∧
    (∃ p, ((Pipelines.insertPipeline pipelineNameRequired natMarshal "id-2" true pipeDefaults
        [] samplePostablePipe).1).1 = some p ∧
      natMarshal samplePostablePipe.config = some p.rawConfig ∧
      (Pipelines.insertPipeline pipelineNameRequired natMarshal "id-2" true pipeDefaults
        [] samplePostablePipe).2 = [] ++ [Pipelines.insertedPipelineRow pipeDefaults p] ∧
      (Pipelines.insertedPipelineRow pipeDefaults p).rawConfig = p.rawConfig) ∧
    (natMarshal sampleEdit.config =
        some (((IngestionRules.EditRule natMarshal true [sampleRule] sampleEdit).1).1.rawConfig) ∧
      ∀ row ∈ (IngestionRules.EditRule natMarshal true [sampleRule] sampleEdit).2,
        row.id = sampleEdit.id →
          row.rawConfig =
            ((IngestionRules.EditRule natMarshal true [sampleRule] sampleEdit).1).1.rawConfig)) :=
  ⟨rfl, rfl, rfl,
    raw_config_valid_serialization_at_write ruleNameRequired pipelineNameRequired
      natMarshal natMarshal natMarshal "id-1" "id-2" true true true
      ruleDefaults pipeDefaults [] [sampleRule] [] samplePostableRule samplePostablePipe
      sampleEdit rfl rfl rfl⟩

/-- C9: `DeleteRule` and `DeletePipeline` return a nil error whenever the
DELETE statement executes, matching rows or not; a non-nil (bad-request)
error arises only when the statement itself fails at the driver. -/
theorem delete_succeeds_even_without_matching_rows {Cfg : Type}
    (dbR : List (IngestionRules.IngestionRule Cfg)) (dbP : List (Pipelines.Pipeline Cfg))
    (idR idP : String)
    (hR : dbR.filter (fun r => r.id = idR) = [])
    (hP : dbP.filter (fun r => r.id = idP) = []) :
    IngestionRules.DeleteRule true dbR idR = (none, dbR) ∧
    Pipelines.DeletePipeline true dbP idP = (none, dbP) ∧
    (∀ (dbOk : Bool) (db2 : List (IngestionRules.IngestionRule Cfg)) (id2 : String),
      ((IngestionRules.DeleteRule dbOk db2 id2).1).isSome = true → dbOk = false) ∧
    (∀ (dbOk : Bool) (db2 : List (Pipelines.Pipeline Cfg)) (id2 : String),
      ((Pipelines.DeletePipeline dbOk db2 id2).1).isSome = true → dbOk = false) := by
  refine ⟨?_, ?_, ?_, ?_⟩
  · simp only [IngestionRules.DeleteRule, if_true, Prod.mk.injEq, true_and]
    simp only [List.filter_eq_self]
    intro a ha
    simpa using List.filter_eq_nil_iff.mp hR a ha
  · simp only [Pipelines.DeletePipeline, if_true, Prod.mk.injEq, true_and]
    simp only [List.filter_eq_self]
    intro a ha
    simpa using List.filter_eq_nil_iff.mp hP a ha
  · intro dbOk db2 id2 h2
    cases dbOk with
    | false => rfl
    | true => simp [IngestionRules.DeleteRule] at h2
  · intro dbOk db2 id2 h2
    cases dbOk with
    | false => rfl
    | true => simp [Pipelines.DeletePipeline] at h2

/-- Witness for C9 at concrete inputs. -/
theorem delete_succeeds_even_without_matching_rows_witness :
    [sampleRule].filter (fun r => r.id = "missing") = [] ∧
    [samplePipe].filter (fun r => r.id = "missing") = [] ∧
    (IngestionRules.DeleteRule true [sampleRule] "missing" = (none, [sampleRule]) ∧
      Pipelines.DeletePipeline true [samplePipe] "missing" = (none, [samplePipe]) ∧
      (∀ (dbOk : Bool) (db2 : List (IngestionRules.IngestionRule Nat)) (id2 : String),
        ((IngestionRules.DeleteRule dbOk db2 id2).1).isSome = true → dbOk = false) ∧
      (∀ (dbOk : Bool) (db2 : List (Pipelines.Pipeline Nat)) (id2 : String),
        ((Pipelines.DeletePipeline dbOk db2 id2).1).isSome = true → dbOk = false)) :=
  ⟨by decide, by decide,
    delete_succeeds_even_without_matching_rows [sampleRule] [samplePipe]
      "missing" "missing" (by decide) (by decide)⟩

/-- C10: a valid insert returns a struct carrying
`DeployStatus = PendingDeploy` and `DeploySequence = -1`, but the INSERT
statement writes only the seven columns id, name, source, rule_type,
rule_subtype, priority and config_json — the deployment columns of the
stored row keep their table defaults. -/
theorem insert_sets_deploy_fields_in_struct_not_in_db {Cfg : Type}
    (isValid : IngestionRules.PostableIngestionRule Cfg → Option String)
    (marshal : Cfg → Option String) (newId : String) (dbOk : Bool)
    (defaults : IngestionRules.IngestionRule Cfg)
    (db : List (IngestionRules.IngestionRule Cfg))
    (postable : IngestionRules.PostableIngestionRule Cfg)
    (hIns : ((IngestionRules.InsertRule isValid marshal newId dbOk defaults db postable).1).2 = none) :
    (∃ r, ((IngestionRules.InsertRule isValid marshal newId dbOk defaults db postable).1).1 = some r ∧
      r.deployStatus = IngestionRules.DeployStatus.PendingDeploy ∧
      r.deploySequence = -1 ∧
      (IngestionRules.InsertRule isValid marshal newId dbOk defaults db postable).2 =
        db ++ [IngestionRules.insertedRuleRow defaults r] ∧
      (IngestionRules.insertedRuleRow defaults r).deployStatus = defaults.deployStatus ∧
      (IngestionRules.insertedRuleRow defaults r).deploySequence = defaults.deploySequence) ∧
    IngestionRules.insertRuleColumns =
      [IngestionRules.Col.id, IngestionRules.Col.name, IngestionRules.Col.source,
        IngestionRules.Col.rule_type, IngestionRules.Col.rule_subtype,
        IngestionRules.Col.priority, IngestionRules.Col.config_json] ∧
    IngestionRules.Col.deployment_status ∉ IngestionRules.insertRuleColumns ∧
    IngestionRules.Col.deployment_sequence ∉ IngestionRules.insertRuleColumns := by
  obtain ⟨r, h1, h2, -, -, h5, h6⟩ :=
    IngestionRules.InsertRule_success_spec isValid marshal newId dbOk defaults db postable hIns
  exact ⟨⟨r, h1, h5, h6, h2, rfl, rfl⟩, rfl, by decide, by decide⟩

/-- Witness for C10 at concrete inputs. -/
theorem insert_sets_deploy_fields_in_struct_not_in_db_witness :
    ((IngestionRules.InsertRule ruleNameRequired natMarshal "id-1" true ruleDefaults
        [] samplePostableRule).1).2 = none ∧
    ((∃ r, ((IngestionRules.InsertRule ruleNameRequired natMarshal "id-1" true ruleDefaults
        [] samplePostableRule).1).1 = some r ∧
      r.deployStatus = IngestionRules.DeployStatus.PendingDeploy ∧
      r.deploySequence = -1 ∧
      (IngestionRules.InsertRule ruleNameRequired natMarshal "id-1" true ruleDefaults
        [] samplePostableRule).2 = [] ++ [IngestionRules.insertedRuleRow ruleDefaults r] ∧
      (IngestionRules.insertedRuleRow ruleDefaults r).deployStatus = ruleDefaults.deployStatus ∧
      (IngestionRules.insertedRuleRow ruleDefaults r).deploySequence = ruleDefaults.deploySequence) ∧
    IngestionRules.insertRuleColumns =
      [IngestionRules.Col.id, IngestionRules.Col.name, IngestionRules.Col.source,
        IngestionRules.Col.rule_type, IngestionRules.Col.rule_subtype,
        IngestionRules.Col.priority, IngestionRules.Col.config_json] ∧
    IngestionRules.Col.deployment_status ∉ IngestionRules.insertRuleColumns ∧
    IngestionRules.Col.deployment_sequence ∉ IngestionRules.insertRuleColumns) :=
  ⟨rfl,
    insert_sets_deploy_fields_in_struct_not_in_db ruleNameRequired natMarshal "id-1" true
      ruleDefaults [] samplePostableRule rfl⟩
